import Mathlib

/-!
A shallow embedding of the database layer of the Limitless Apparel POS
(`src/js/db.js`, class `DatabaseManager`), together with the cart-total
computation of the UI layer (`src/js/pos.js`, `POSApp.processPayment`).

Modelling conventions:
* JavaScript numbers carrying money are modelled as `Rat`; quantities and
  stock counts as `Int` (stock may go negative, which is part of what is
  being verified).  `parseFloat`/`parseInt` applied to an already numeric
  value are the identity, so they disappear in the embedding; comments mark
  where they occur in the source.
* The remote store (supabase) is modelled as an explicit `Store` state:
  one list per table, threaded through every operation.  A single-row
  `.single()` read succeeds exactly when the filtered row set has exactly
  one element, as PostgREST does.
* The authenticated session (`supabase.auth.getSession()`) is a
  `session : Option String` field of the state (the acting user's id).
* Remote-store write failures (network / row-level-security rejections),
  which the source catches and converts into `{success:false}` results,
  are modelled by two fault flags on the state: `failProductUpdate`
  (the `products` table rejects updates) and `failTxInsert` (the
  `inventory_transactions` table rejects inserts).  A flag set to `false`
  means that kind of write succeeds.
* `created_at` / `updated_at` timestamps are not modelled; no verified
  property depends on them.
-/

namespace LimitlessPOS

/-- The uniform result shape `{success, data}` / `{success:false, error}`
returned by every `DatabaseManager` operation. -/
inductive DbResult (α : Type) : Type
  | success (data : α)
  | failure (error : String)
deriving Repr, DecidableEq

/-- Whether a result is a success. -/
def DbResult.isSuccess {α : Type} : DbResult α → Bool
  | DbResult.success _ => true
  | DbResult.failure _ => false

/-- A row of the `products` table (fields as inserted by `createProduct`,
db.js 81-92). -/
structure Product where
  id : Nat
  name : String
  category : String
  price : Rat
  cost_price : Option Rat
  stock_quantity : Int
  size : Option String
  barcode : Option String
  is_on_sale : Bool
  sale_price : Option Rat
  is_active : Bool
deriving Repr, DecidableEq

/-- A row of the `sales` table (db.js 188-192). -/
structure Sale where
  id : Nat
  cashier_id : String
  total : Rat
  payment_method : String
deriving Repr, DecidableEq

/-- A row of the `sale_items` table (db.js 209-216). -/
structure SaleItem where
  sale_id : Nat
  product_id : Nat
  product_name : String
  quantity : Int
  unit_price : Rat
  total : Rat
deriving Repr, DecidableEq

/-- A row of the `inventory_transactions` table (db.js 333-339). -/
structure InventoryTransaction where
  id : Nat
  product_id : Nat
  type : String
  quantity : Int
  user_id : String
  notes : String
deriving Repr, DecidableEq

/-- The remote store together with the ambient session and fault flags. -/
structure Store where
  products : List Product := []
  sales : List Sale := []
  sale_items : List SaleItem := []
  inventory_transactions : List InventoryTransaction := []
  session : Option String := none
  nextProductId : Nat := 1
  nextSaleId : Nat := 1
  nextTxId : Nat := 1
  failProductUpdate : Bool := false
  failTxInsert : Bool := false
deriving Repr, DecidableEq

/-- PostgREST `.single()`: succeed exactly when the query matched one row
(the error text is the PGRST116 condition). -/
def singleRow {α : Type} : List α → DbResult α
  | [r] => DbResult.success r
  | _ => DbResult.failure "JSON object requested, multiple (or no) rows returned"

/-- Case-insensitive substring containment: the semantics of a supabase
`ilike('%s%')` pattern with no wildcard characters inside `s`. -/
def ilikeContains (hay pattern : String) : Bool :=
  let h := hay.toLower.data
  let n := pattern.toLower.data
  (List.range (h.length + 1)).any fun i => n.isPrefixOf (h.drop i)

/-- JavaScript `v ? parseFloat(v) : null` on an optional numeric field:
the number `0` is falsy, so it is mapped to `null`. -/
def jsNumOrNull : Option Rat → Option Rat
  | some c => if c = 0 then none else some c
  | none => none

-- ==================== PRODUCTS ====================

/-- The ordering used by `.order('name')` (db.js 17). -/
def nameLe (a b : Product) : Prop := a.name ≤ b.name

instance : DecidableRel nameLe := fun a b => inferInstanceAs (Decidable (a.name ≤ b.name))

instance : IsTotal Product nameLe := ⟨fun a b => le_total a.name b.name⟩

instance : IsTrans Product nameLe := ⟨fun _ _ _ h1 h2 => le_trans h1 h2⟩

/-- Filter argument of `getProducts` (db.js 12).  `none` models an absent
(`undefined`) field. -/
structure ProductFilters where
  category : Option String := none
  search : Option String := none
  activeOnly : Option Bool := none
deriving Repr, DecidableEq

/-- `DatabaseManager.getProducts` (db.js 12-40): category equality unless
the category is falsy or `"All"`; `ilike` substring search on `name` only;
active-only unless `activeOnly !== false`; ordered by `name`.  Reads never
fail in this model, but the result keeps the source's result shape. -/
def getProducts (st : Store) (filters : ProductFilters) : DbResult (List Product) :=
  let q0 := st.products
  -- if (filters.category && filters.category !== 'All')  [db.js 20-22]
  let q1 := match filters.category with
    | some c => if c == "" || c == "All" then q0 else q0.filter (fun p => p.category == c)
    | none => q0
  -- if (filters.search) → ilike('name', `%search%`)  [db.js 24-26]
  let q2 := match filters.search with
    | some s => if s == "" then q1 else q1.filter (fun p => ilikeContains p.name s)
    | none => q1
  -- if (filters.activeOnly !== false) → eq('is_active', true)  [db.js 28-30]
  let q3 := if filters.activeOnly == some false then q2 else q2.filter (fun p => p.is_active)
  -- .order('name')  [db.js 17]: a stable sort of the result by name
  DbResult.success (q3.insertionSort nameLe)

/-- `DatabaseManager.getProductById` (db.js 43-57): `eq('id', productId).single()`. -/
def getProductById (st : Store) (productId : Nat) : DbResult Product :=
  singleRow (st.products.filter (fun p => p.id == productId))

/-- `DatabaseManager.getProductByBarcode` (db.js 60-74):
`eq('barcode', barcode).single()` — note: **no** `is_active` filter. -/
def getProductByBarcode (st : Store) (barcode : String) : DbResult Product :=
  singleRow (st.products.filter (fun p => p.barcode == some barcode))

-- ==================== INVENTORY ====================

/-- Argument of `createInventoryTransaction` (db.js 323).  The source also
receives an optional `user_id` (passed by `createSale`, db.js 241) but
overrides it with the session user (db.js 337); it is kept here, unused,
to mirror the call sites. -/
structure TransactionData where
  product_id : Nat
  type : String
  quantity : Int
  notes : String := ""
  user_id : Option String := none
deriving Repr, DecidableEq

/-- `DatabaseManager.createInventoryTransaction` (db.js 323-352): requires
an active session, then inserts one ledger row whose `user_id` is the
session user and whose `quantity` is `parseInt` of the given delta
(identity here).  All failures are caught and become failure results. -/
def createInventoryTransaction (st : Store) (transactionData : TransactionData) :
    DbResult InventoryTransaction × Store :=
  match st.session with
  | none => (DbResult.failure "User not authenticated", st)
  | some user =>
    if st.failTxInsert then
      (DbResult.failure "Error creating inventory transaction", st)
    else
      let transaction : InventoryTransaction :=
        { id := st.nextTxId
          product_id := transactionData.product_id
          type := transactionData.type
          quantity := transactionData.quantity
          user_id := user
          notes := transactionData.notes }
      (DbResult.success transaction,
        { st with
            inventory_transactions := st.inventory_transactions ++ [transaction]
            nextTxId := st.nextTxId + 1 })

-- ==================== PRODUCT CREATE / UPDATE ====================

/-- Argument of `createProduct` (db.js 77).  `none` models an absent field. -/
structure ProductData where
  name : String
  category : String
  price : Rat
  cost_price : Option Rat := none
  stock_quantity : Option Int := none
  size : Option String := none
  barcode : Option String := none
  is_on_sale : Option Bool := none
  sale_price : Option Rat := none
deriving Repr, DecidableEq

/-- `DatabaseManager.createProduct` (db.js 77-112): inserts the product
with `is_active := true` and `parseInt(stock_quantity) || 0` (→ `getD 0`);
then, if the initial stock is `> 0`, appends one `"restock"` ledger entry
with note `"Initial stock"`.  The ledger append's result is ignored
(`createInventoryTransaction` never throws), so its failure cannot roll
back or fail the product creation. -/
def createProduct (st : Store) (productData : ProductData) : DbResult Product × Store :=
  let newProduct : Product :=
    { id := st.nextProductId
      name := productData.name
      category := productData.category
      price := productData.price                      -- parseFloat
      cost_price := jsNumOrNull productData.cost_price
      stock_quantity := productData.stock_quantity.getD 0
      size := productData.size
      barcode := productData.barcode
      is_on_sale := productData.is_on_sale.getD false -- `|| false`
      sale_price := jsNumOrNull productData.sale_price
      is_active := true }
  let st1 := { st with
      products := st.products ++ [newProduct]
      nextProductId := st.nextProductId + 1 }
  -- if (parseInt(productData.stock_quantity) > 0)  [db.js 98-105]
  let st2 :=
    if productData.stock_quantity.getD 0 > 0 then
      (createInventoryTransaction st1
        { product_id := newProduct.id
          type := "restock"
          quantity := productData.stock_quantity.getD 0
          notes := "Initial stock" }).2
    else st1
  (DbResult.success newProduct, st2)

/-- Partial field set accepted by `updateProduct` (db.js 116).  `none`
models an absent (`undefined`) field. -/
structure ProductUpdates where
  name : Option String := none
  category : Option String := none
  price : Option Rat := none
  cost_price : Option Rat := none
  stock_quantity : Option Int := none
  sale_price : Option Rat := none
  is_on_sale : Option Bool := none
  size : Option String := none
  barcode : Option String := none
  is_active : Option Bool := none
deriving Repr, DecidableEq

/-- Apply a partial update to a product row: each provided field replaces
the stored one, absent fields are kept.  The source's numeric handling
(db.js 127-130) is `parseFloat`/`parseInt` coercion only — the identity on
numeric values — with **no** range check of any kind. -/
def applyUpdates (u : ProductUpdates) (p : Product) : Product :=
  { p with
      name := u.name.getD p.name
      category := u.category.getD p.category
      price := u.price.getD p.price
      cost_price := match u.cost_price with
        | some c => some c
        | none => p.cost_price
      stock_quantity := u.stock_quantity.getD p.stock_quantity
      sale_price := match u.sale_price with
        | some s => some s
        | none => p.sale_price
      is_on_sale := u.is_on_sale.getD p.is_on_sale
      size := match u.size with
        | some s => some s
        | none => p.size
      barcode := match u.barcode with
        | some b => some b
        | none => p.barcode
      is_active := u.is_active.getD p.is_active }

/-- The row transformer of an `update(...).eq('id', productId)` statement. -/
def updRow (productId : Nat) (updates : ProductUpdates) (p : Product) : Product :=
  if p.id == productId then applyUpdates updates p else p

/-- `DatabaseManager.updateProduct` (db.js 116-151): updates every row with
the given id and returns `data[0]` of the updated rows (which is
`undefined`, i.e. `none`, when no row matched).  The only failure path is
the store rejecting the update; **no validation is performed**. -/
def updateProduct (st : Store) (productId : Nat) (updates : ProductUpdates) :
    DbResult (Option Product) × Store :=
  if st.failProductUpdate then
    (DbResult.failure "Error updating product", st)
  else
    let newProducts := st.products.map (updRow productId updates)
    (DbResult.success ((newProducts.filter (fun p => p.id == productId)).head?),
      { st with products := newProducts })

/-- `DatabaseManager.deleteProduct` (db.js 154-171): soft delete, an
`update({is_active:false}).eq('id', productId)` on the products table. -/
def deleteProduct (st : Store) (productId : Nat) : DbResult (Option Product) × Store :=
  updateProduct st productId { is_active := some false }

-- ==================== SALES ====================

/-- A cart line as built by `POSApp.addToCart` (pos.js 974-981); the UI
also stores `icon` and `maxQuantity`, which `createSale` never reads. -/
structure CartItem where
  id : Nat
  name : String
  price : Rat
  quantity : Int
deriving Repr, DecidableEq

/-- Argument of `createSale` (db.js 176), as built by
`POSApp.processPayment` (pos.js 1135-1142). -/
structure SaleData where
  items : List CartItem
  total : Rat
  payment_method : String
deriving Repr, DecidableEq

/-- The `sale_items` row built for one cart line (db.js 209-216): the line
total is recomputed as `parseFloat(item.price) * parseInt(item.quantity)`,
not read from the input. -/
def mkSaleItem (saleId : Nat) (item : CartItem) : SaleItem :=
  { sale_id := saleId
    product_id := item.id
    product_name := item.name
    quantity := item.quantity
    unit_price := item.price
    total := item.price * item.quantity }

/-- One iteration of the per-item stock loop of `createSale`
(db.js 228-244): read the product; if the read succeeded, write back
`stock_quantity - item.quantity` and append a `"sale"` ledger entry with
delta `-item.quantity` and note `Sale <saleId>`; if the read failed,
silently skip the item.  The results of the write and of the ledger append
are not checked. -/
def saleLoopStep (user : String) (saleId : Nat) (st : Store) (item : CartItem) : Store :=
  match getProductById st item.id with
  | DbResult.success product =>
    let newStock := product.stock_quantity - item.quantity
    let st1 := (updateProduct st item.id { stock_quantity := some newStock }).2
    (createInventoryTransaction st1
      { product_id := item.id
        type := "sale"
        quantity := -item.quantity
        notes := "Sale " ++ toString saleId
        user_id := some user }).2
  | DbResult.failure _ => st

/-- The success payload of `createSale` (db.js 246-253). -/
structure SaleResult where
  sale : Sale
  items : List SaleItem
  saleId : Nat
deriving Repr, DecidableEq

/-- `DatabaseManager.createSale` (db.js 176-258): require a session; insert
the sale row with `total := parseFloat(saleData.total)` (taken from the
caller, not recomputed); insert all sale lines in one batched write; then
run the per-item stock/ledger loop.  Nothing after the session check can
fail the call in this model, and the loop's step results are never
checked, mirroring the source. -/
def createSale (st : Store) (saleData : SaleData) : DbResult SaleResult × Store :=
  match st.session with
  | none => (DbResult.failure "User not authenticated", st)
  | some user =>
    let sale : Sale :=
      { id := st.nextSaleId
        cashier_id := user
        total := saleData.total
        payment_method := saleData.payment_method }
    let saleId := st.nextSaleId
    let st1 := { st with sales := st.sales ++ [sale], nextSaleId := st.nextSaleId + 1 }
    let saleItems := saleData.items.map (mkSaleItem saleId)
    let st2 := { st1 with sale_items := st1.sale_items ++ saleItems }
    let st3 := saleData.items.foldl (saleLoopStep user saleId) st2
    (DbResult.success { sale := sale, items := saleItems, saleId := saleId }, st3)

/-- The cart total computed by `POSApp.processPayment` (pos.js 1137-1140):
`this.cart.reduce((sum, item) => sum + item.price * item.quantity, 0)`. -/
def processPaymentTotal (cart : List CartItem) : Rat :=
  cart.foldl (fun sum item => sum + item.price * item.quantity) 0

/-- `DatabaseManager.restockProduct` (db.js 377-401): read the product
(failing with "Product not found" when the read fails), then write
`stock + parseInt(quantity)` and append a `"restock"` ledger entry — the
results of both of those calls are never checked — and report
`{success:true, newStock}`. -/
def restockProduct (st : Store) (productId : Nat) (quantity : Int) (notes : String := "") :
    DbResult Int × Store :=
  match getProductById st productId with
  | DbResult.failure _ => (DbResult.failure "Product not found", st)
  | DbResult.success product =>
    let newStock := product.stock_quantity + quantity
    let st1 := (updateProduct st productId { stock_quantity := some newStock }).2
    let st2 := (createInventoryTransaction st1
      { product_id := productId
        type := "restock"
        quantity := quantity
        -- notes || `Restocked ${quantity} units`  (empty string is falsy)
        notes := if notes = "" then "Restocked " ++ toString quantity ++ " units" else notes }).2
    (DbResult.success newStock, st2)

-- ==================== ANALYTICS & UTILITY ====================

/-- The projected row fetched by `getInventorySummary`
(`select('stock_quantity, price, cost_price')`, db.js 515). -/
structure InventoryRow where
  stock_quantity : Int
  price : Rat
  cost_price : Option Rat
deriving Repr, DecidableEq

/-- The summary record assembled by `getInventorySummary` (db.js 531-544).
The source also returns `lowStockItems` mapped over a `name` field that
the projection did not fetch; that list is not modelled. -/
structure InventorySummary where
  totalInventory : Int
  totalStockValue : Rat
  totalCostValue : Rat
  lowStockCount : Nat
  outOfStockCount : Nat
deriving Repr, DecidableEq

/-- `DatabaseManager.getInventorySummary` (db.js 511-549): scans active
products; low stock is `stock_quantity < 10` (db.js 528) and out of stock
is `stock_quantity === 0` (db.js 529). -/
def getInventorySummary (st : Store) : DbResult InventorySummary :=
  let products := (st.products.filter (fun p => p.is_active)).map
    (fun p => ({ stock_quantity := p.stock_quantity
                 price := p.price
                 cost_price := p.cost_price } : InventoryRow))
  let totalInventory := products.foldl (fun sum product => sum + product.stock_quantity) 0
  let totalStockValue := products.foldl
    (fun sum product => sum + (product.stock_quantity : Rat) * product.price) 0
  let totalCostValue := products.foldl
    (fun sum product => sum + (product.stock_quantity : Rat) * (product.cost_price.getD 0)) 0
  let lowStockItems := products.filter (fun product => product.stock_quantity < 10)
  let outOfStockItems := products.filter (fun product => product.stock_quantity == 0)
  DbResult.success
    { totalInventory := totalInventory
      totalStockValue := totalStockValue
      totalCostValue := totalCostValue
      lowStockCount := lowStockItems.length
      outOfStockCount := outOfStockItems.length }

-- ==================== CONCURRENCY PHASES ====================

/-- The read phase of one iteration of `createSale`'s stock loop
(db.js 230): `const product = await this.getProductById(item.id)`.  The
`await` is a suspension point: another session's operations can run
between this read and the write below. -/
def saleStockRead (st : Store) (itemId : Nat) : DbResult Product :=
  getProductById st itemId

/-- The write phase of the same iteration (db.js 232-242): compute
`newStock` from the **previously read** product and write it back, then
append the ledger entry.  There is no compare-and-swap, row lock, or
floor check: whatever stock value was read is decremented and stored. -/
def saleStockWrite (user : String) (saleId : Nat) (st : Store) (itemId : Nat)
    (product : Product) (qty : Int) : Store :=
  let newStock := product.stock_quantity - qty
  let st1 := (updateProduct st itemId { stock_quantity := some newStock }).2
  (createInventoryTransaction st1
    { product_id := itemId
      type := "sale"
      quantity := -qty
      notes := "Sale " ++ toString saleId
      user_id := some user }).2

/-- `DatabaseManager.checkBarcodeExists` (db.js 572-592): counts only
**active** products with the given barcode, optionally excluding one id. -/
def checkBarcodeExists (st : Store) (barcode : String)
    (excludeProductId : Option Nat := none) : DbResult Bool :=
  let q1 := st.products.filter (fun (p : Product) => p.barcode == some barcode && p.is_active)
  let q2 := match excludeProductId with
    | some pid => q1.filter (fun (p : Product) => p.id != pid)
    | none => q1
  DbResult.success (decide (q2.length > 0))

-- ==================== BASIC LEMMAS ====================

/-- The loop body of `createSale` is exactly the read phase followed by
the write phase (the two halves split at the `await` suspension point). -/
theorem saleLoopStep_phases (u : String) (sid : Nat) (st : Store) (i : CartItem) :
    saleLoopStep u sid st i =
      match saleStockRead st i.id with
      | DbResult.success p => saleStockWrite u sid st i.id p i.quantity
      | DbResult.failure _ => st := rfl

/-- `updRow` never changes a row's id. -/
theorem updRow_id (j : Nat) (u : ProductUpdates) (p : Product) :
    (updRow j u p).id = p.id := by
  unfold updRow
  split
  · rfl
  · rfl

/-- Applying an update that only sets the stock quantity. -/
theorem applyUpdates_stock (s : Int) (p : Product) :
    applyUpdates { stock_quantity := some s } p = { p with stock_quantity := s } := rfl

/-- The state component of `updateProduct`. -/
theorem updateProduct_snd (st : Store) (j : Nat) (u : ProductUpdates) :
    (updateProduct st j u).2 =
      if st.failProductUpdate then st
      else { st with products := st.products.map (updRow j u) } := by
  by_cases h : st.failProductUpdate <;> simp [updateProduct, h]

/-- The state component of `createInventoryTransaction`. -/
theorem createInventoryTransaction_snd (st : Store) (td : TransactionData) :
    (createInventoryTransaction st td).2 =
      match st.session with
      | none => st
      | some user =>
        if st.failTxInsert then st
        else
          { st with
              inventory_transactions := st.inventory_transactions ++
                [{ id := st.nextTxId, product_id := td.product_id, type := td.type,
                   quantity := td.quantity, user_id := user, notes := td.notes }]
              nextTxId := st.nextTxId + 1 } := by
  cases h : st.session <;> by_cases h2 : st.failTxInsert <;>
    simp [createInventoryTransaction, h, h2]

/-- A successful single-row read of a product by id. -/
theorem getProductById_of_filter {st : Store} {pid : Nat} {P : Product}
    (h : st.products.filter (fun p => p.id == pid) = [P]) :
    getProductById st pid = DbResult.success P := by
  unfold getProductById
  rw [h]
  rfl

/-- Updating rows with an id other than `pid` leaves the `pid` rows as
they were. -/
theorem filter_map_updRow_ne {l : List Product} {j pid : Nat} (u : ProductUpdates)
    (h : ¬j = pid) :
    (l.map (updRow j u)).filter (fun p => p.id == pid) =
      l.filter (fun p => p.id == pid) := by
  induction l with
  | nil => rfl
  | cons p ps ih =>
    simp only [List.map_cons, List.filter_cons, updRow_id]
    by_cases hpid : p.id = pid
    · have hpj : ¬p.id = j := fun hc => h (by rw [← hc, hpid])
      have hrow : updRow j u p = p := by simp [updRow, hpj]
      simp [hpid, hrow, ih]
    · simp [hpid, ih]

/-- Updating the rows with id `pid` maps `applyUpdates` across exactly the
`pid` rows. -/
theorem filter_map_updRow_eq {l : List Product} {pid : Nat} (u : ProductUpdates) :
    (l.map (updRow pid u)).filter (fun p => p.id == pid) =
      (l.filter (fun p => p.id == pid)).map (applyUpdates u) := by
  induction l with
  | nil => rfl
  | cons p ps ih =>
    simp only [List.map_cons, List.filter_cons, updRow_id]
    by_cases hpid : p.id = pid
    · have hrow : updRow pid u p = applyUpdates u p := by simp [updRow, hpid]
      simp [hpid, hrow, ih]
    · simp [hpid, ih]

/-- Effect of the write phase when no remote write fails: the `pid` rows
get the decremented stock, one `"sale"` ledger entry is appended, and the
session and fault flags are untouched. -/
theorem saleStockWrite_eff (u : String) (sid : Nat) (st : Store) (pid : Nat)
    (Pread : Product) (q : Int)
    (hsess : st.session = some u) (hf1 : st.failProductUpdate = false)
    (hf2 : st.failTxInsert = false) :
    ((saleStockWrite u sid st pid Pread q).products.filter (fun p => p.id == pid) =
      (st.products.filter (fun p => p.id == pid)).map
        (applyUpdates { stock_quantity := some (Pread.stock_quantity - q) })) ∧
    ((saleStockWrite u sid st pid Pread q).inventory_transactions =
      st.inventory_transactions ++
        [{ id := st.nextTxId, product_id := pid, type := "sale",
           quantity := -q, user_id := u, notes := "Sale " ++ toString sid }]) ∧
    (saleStockWrite u sid st pid Pread q).session = st.session ∧
    (saleStockWrite u sid st pid Pread q).failProductUpdate = st.failProductUpdate ∧
    (saleStockWrite u sid st pid Pread q).failTxInsert = st.failTxInsert := by
  unfold saleStockWrite
  dsimp only []
  rw [updateProduct_snd, hf1]
  simp only [if_false, Bool.false_eq_true]
  rw [createInventoryTransaction_snd]
  simp only [hsess, hf2, if_false, Bool.false_eq_true]
  exact ⟨filter_map_updRow_eq _, trivial, trivial, trivial, trivial⟩

/-- The loop body never touches the session, the fault flags, the sales
table or the sale-lines table. -/
theorem saleLoopStep_frame (u : String) (sid : Nat) (st : Store) (i : CartItem) :
    (saleLoopStep u sid st i).session = st.session ∧
    (saleLoopStep u sid st i).failProductUpdate = st.failProductUpdate ∧
    (saleLoopStep u sid st i).failTxInsert = st.failTxInsert ∧
    (saleLoopStep u sid st i).sales = st.sales ∧
    (saleLoopStep u sid st i).sale_items = st.sale_items := by
  unfold saleLoopStep
  cases getProductById st i.id with
  | failure e => exact ⟨rfl, rfl, rfl, rfl, rfl⟩
  | success p =>
    dsimp only []
    rw [updateProduct_snd, createInventoryTransaction_snd]
    by_cases h1 : st.failProductUpdate <;> cases h2 : st.session <;>
      by_cases h3 : st.failTxInsert <;> simp [h1, h2, h3]

/-- A loop iteration for a cart line of a *different* product neither
changes the `pid` product rows nor the ledger entries selected by
`pid` and a note. -/
theorem saleLoopStep_ne (u : String) (sid : Nat) (st : Store) (i : CartItem)
    (pid : Nat) (note : String) (h : ¬i.id = pid) :
    ((saleLoopStep u sid st i).products.filter (fun p => p.id == pid) =
      st.products.filter (fun p => p.id == pid)) ∧
    ((saleLoopStep u sid st i).inventory_transactions.filter
        (fun e => e.product_id == pid && e.notes == note) =
      st.inventory_transactions.filter
        (fun e => e.product_id == pid && e.notes == note)) := by
  unfold saleLoopStep
  cases getProductById st i.id with
  | failure e => exact ⟨rfl, rfl⟩
  | success p =>
    dsimp only []
    rw [updateProduct_snd, createInventoryTransaction_snd]
    by_cases h1 : st.failProductUpdate <;> cases h2 : st.session <;>
      by_cases h3 : st.failTxInsert <;>
        simp [h1, h2, h3, List.filter_append, filter_map_updRow_ne _ h, h]

/-- A loop iteration for the `pid` cart line itself, in a fault-free state
holding exactly one `pid` row: the row's stock is decremented by the cart
quantity and one `"sale"` ledger entry with delta `-quantity` and note
`Sale <sid>` is appended. -/
theorem saleLoopStep_hit (u : String) (sid : Nat) (st : Store) (i : CartItem) (P : Product)
    (hsess : st.session = some u) (hf1 : st.failProductUpdate = false)
    (hf2 : st.failTxInsert = false)
    (hfilter : st.products.filter (fun p => p.id == i.id) = [P]) :
    ((saleLoopStep u sid st i).products.filter (fun p => p.id == i.id) =
      [{ P with stock_quantity := P.stock_quantity - i.quantity }]) ∧
    ((saleLoopStep u sid st i).inventory_transactions =
      st.inventory_transactions ++
        [{ id := st.nextTxId, product_id := i.id, type := "sale",
           quantity := -i.quantity, user_id := u, notes := "Sale " ++ toString sid }]) := by
  unfold saleLoopStep
  rw [getProductById_of_filter hfilter]
  dsimp only []
  rw [updateProduct_snd, hf1]
  simp only [if_false, Bool.false_eq_true]
  rw [createInventoryTransaction_snd]
  simp only [hsess, hf2, if_false, Bool.false_eq_true]
  refine ⟨?_, trivial⟩
  rw [filter_map_updRow_eq, hfilter, List.map_singleton, applyUpdates_stock]

/-- Folding the loop over cart lines none of which mention product `pid`
preserves the `pid` rows and the `pid`-and-note ledger selection. -/
theorem foldl_saleLoopStep_ne (u : String) (sid : Nat) (pid : Nat) (note : String) :
    ∀ (l : List CartItem) (st : Store), (∀ i ∈ l, ¬i.id = pid) →
    ((l.foldl (saleLoopStep u sid) st).products.filter (fun p => p.id == pid) =
      st.products.filter (fun p => p.id == pid)) ∧
    ((l.foldl (saleLoopStep u sid) st).inventory_transactions.filter
        (fun e => e.product_id == pid && e.notes == note) =
      st.inventory_transactions.filter
        (fun e => e.product_id == pid && e.notes == note))
  | [], _, _ => ⟨rfl, rfl⟩
  | i :: l, st, h => by
    simp only [List.foldl_cons]
    have h1 := saleLoopStep_ne u sid st i pid note (h i (List.mem_cons_self i l))
    have h2 := foldl_saleLoopStep_ne u sid pid note l (saleLoopStep u sid st i)
      (fun j hj => h j (List.mem_cons_of_mem i hj))
    exact ⟨h2.1.trans h1.1, h2.2.trans h1.2⟩

/-- Folding the loop preserves the session and the fault flags. -/
theorem foldl_saleLoopStep_frame (u : String) (sid : Nat) :
    ∀ (l : List CartItem) (st : Store),
    ((l.foldl (saleLoopStep u sid) st).session = st.session) ∧
    ((l.foldl (saleLoopStep u sid) st).failProductUpdate = st.failProductUpdate) ∧
    ((l.foldl (saleLoopStep u sid) st).failTxInsert = st.failTxInsert)
  | [], _ => ⟨rfl, rfl, rfl⟩
  | i :: l, st => by
    simp only [List.foldl_cons]
    have h1 := saleLoopStep_frame u sid st i
    have h2 := foldl_saleLoopStep_frame u sid l (saleLoopStep u sid st i)
    exact ⟨h2.1.trans h1.1, h2.2.1.trans h1.2.1, h2.2.2.trans h1.2.2.1⟩

/-- Unfolding `createSale` under an active session: the result is a
success carrying the sale row (with the caller-supplied total) and the
recomputed sale lines, and the final state is the stock/ledger loop run
on the state holding the new sale row and sale lines. -/
theorem createSale_eq (st : Store) (sd : SaleData) (user : String)
    (hsess : st.session = some user) :
    createSale st sd =
      (DbResult.success
        { sale := { id := st.nextSaleId, cashier_id := user, total := sd.total,
                    payment_method := sd.payment_method },
          items := sd.items.map (mkSaleItem st.nextSaleId),
          saleId := st.nextSaleId },
       sd.items.foldl (saleLoopStep user st.nextSaleId)
         { st with
             sales := st.sales ++
               [{ id := st.nextSaleId, cashier_id := user, total := sd.total,
                  payment_method := sd.payment_method }],
             nextSaleId := st.nextSaleId + 1,
             sale_items := st.sale_items ++ sd.items.map (mkSaleItem st.nextSaleId) }) := by
  unfold createSale
  rw [hsess]

-- ==================== EXAMPLE DATA ====================

/-- A concrete product used for concrete instantiations. -/
def exShirt : Product :=
  { id := 1, name := "Shirt", category := "Tops", price := 5, cost_price := none,
    stock_quantity := 3, size := none, barcode := some "12345", is_on_sale := false,
    sale_price := none, is_active := true }

/-- A store holding one product and an authenticated cashier session. -/
def exStore : Store := { products := [exShirt], session := some "cashier-1" }

-- ==================== MAIN LOOP COMPUTATION ====================

/-- Running the stock/ledger loop over a cart that mentions product
`itm.id` in exactly one line: the stored stock becomes the old stock minus
the line quantity, and the ledger entries for that product carrying this
sale's note are exactly one `"sale"` entry with delta `-quantity`. -/
theorem foldl_saleLoopStep_main (u : String) (sid : Nat) (st0 : Store)
    (l1 l2 : List CartItem) (itm : CartItem) (P : Product)
    (hsess : st0.session = some u) (hf1 : st0.failProductUpdate = false)
    (hf2 : st0.failTxInsert = false)
    (hfilter : st0.products.filter (fun p => p.id == itm.id) = [P])
    (hl1 : ∀ i ∈ l1, ¬i.id = itm.id) (hl2 : ∀ i ∈ l2, ¬i.id = itm.id)
    (hfresh : st0.inventory_transactions.filter
        (fun e => e.product_id == itm.id && e.notes == "Sale " ++ toString sid) = []) :
    (((l1 ++ itm :: l2).foldl (saleLoopStep u sid) st0).products.filter
        (fun p => p.id == itm.id)).map (fun p => p.stock_quantity) =
      [P.stock_quantity - itm.quantity] ∧
    (((l1 ++ itm :: l2).foldl (saleLoopStep u sid) st0).inventory_transactions.filter
        (fun e => e.product_id == itm.id && e.notes == "Sale " ++ toString sid)).map
        (fun e => (e.type, e.quantity)) = [("sale", -itm.quantity)] := by
  rw [List.foldl_append, List.foldl_cons]
  have F := foldl_saleLoopStep_frame u sid l1 st0
  have A := foldl_saleLoopStep_ne u sid itm.id ("Sale " ++ toString sid) l1 st0 hl1
  have hit := saleLoopStep_hit u sid (l1.foldl (saleLoopStep u sid) st0) itm P
    (F.1.trans hsess) (F.2.1.trans hf1) (F.2.2.trans hf2) (A.1.trans hfilter)
  have B := foldl_saleLoopStep_ne u sid itm.id ("Sale " ++ toString sid) l2
    (saleLoopStep u sid (l1.foldl (saleLoopStep u sid) st0) itm) hl2
  constructor
  · rw [B.1, hit.1]
    rfl
  · rw [B.2, hit.2, List.filter_append, A.2, hfresh]
    simp

-- ==================== CLAIMS ====================

/-- C1: For every fault-free successful `createSale` call over a cart whose
single line for a product `pid` (present in the store with stock
`oldStock`) has quantity `q`, after the call the stored stock of `pid`
equals `oldStock - q`, and exactly one ledger entry referencing that sale
exists for `pid`, of type `"sale"` with quantity delta `-q`. -/
theorem C1_createSale_stock_and_ledger
    (st : Store) (sd : SaleData) (user : String) (pid : Nat) (P : Product)
    (q oldStock : Int) (l1 l2 : List CartItem) (itm : CartItem)
    (hsess : st.session = some user)
    (hf1 : st.failProductUpdate = false) (hf2 : st.failTxInsert = false)
    (hfilter : st.products.filter (fun p => p.id == pid) = [P])
    (hstock : P.stock_quantity = oldStock)
    (hitems : sd.items = l1 ++ itm :: l2)
    (hid : itm.id = pid) (hq : itm.quantity = q)
    (hl1 : ∀ i ∈ l1, ¬i.id = pid) (hl2 : ∀ i ∈ l2, ¬i.id = pid)
    (hfresh : st.inventory_transactions.filter
        (fun e => e.product_id == pid && e.notes == "Sale " ++ toString st.nextSaleId) = []) :
    (createSale st sd).1.isSuccess = true ∧
    ((createSale st sd).2.products.filter (fun p => p.id == pid)).map
        (fun p => p.stock_quantity) = [oldStock - q] ∧
    ((createSale st sd).2.inventory_transactions.filter
        (fun e => e.product_id == pid && e.notes == "Sale " ++ toString st.nextSaleId)).map
        (fun e => (e.type, e.quantity)) = [("sale", -q)] := by
  subst hid hq hstock
  rw [createSale_eq st sd user hsess, hitems]
  have main := foldl_saleLoopStep_main user st.nextSaleId
    { st with
        sales := st.sales ++
          [{ id := st.nextSaleId, cashier_id := user, total := sd.total,
             payment_method := sd.payment_method }],
        nextSaleId := st.nextSaleId + 1,
        sale_items := st.sale_items ++ (l1 ++ itm :: l2).map (mkSaleItem st.nextSaleId) }
    l1 l2 itm P hsess hf1 hf2 hfilter hl1 hl2 hfresh
  exact ⟨rfl, main.1, main.2⟩

/-- C1 witness: selling 2 of the shirt (stock 3) from `exStore` leaves
stock 1 and exactly one `"sale"` ledger entry with delta `-2` for sale 1. -/
theorem C1_witness :
    (createSale exStore
        { items := [⟨1, "Shirt", 5, 2⟩], total := 10, payment_method := "Cash" }).1.isSuccess
      = true ∧
    ((createSale exStore
          { items := [⟨1, "Shirt", 5, 2⟩], total := 10, payment_method := "Cash" }).2.products.filter
        (fun p => p.id == 1)).map (fun p => p.stock_quantity) = [(3 : Int) - 2] ∧
    ((createSale exStore
          { items := [⟨1, "Shirt", 5, 2⟩], total := 10, payment_method := "Cash" }).2.inventory_transactions.filter
        (fun e => e.product_id == 1 && e.notes == "Sale " ++ toString exStore.nextSaleId)).map
        (fun e => (e.type, e.quantity)) = [("sale", -(2 : Int))] :=
  C1_createSale_stock_and_ledger exStore
    { items := [⟨1, "Shirt", 5, 2⟩], total := 10, payment_method := "Cash" }
    "cashier-1" 1 exShirt 2 3 [] [] ⟨1, "Shirt", 5, 2⟩
    rfl rfl rfl rfl rfl rfl rfl rfl
    (by simp) (by simp) rfl

/-- The tail-recursive accumulation of `processPayment`'s reduce, related
to the sum of the recomputed line totals. -/
theorem processPaymentTotal_go (sid : Nat) :
    ∀ (l : List CartItem) (a : Rat),
      l.foldl (fun (sum : Rat) (item : CartItem) => sum + item.price * item.quantity) a =
        a + ((l.map (mkSaleItem sid)).map (fun it => it.total)).sum
  | [], a => by simp
  | i :: l, a => by
    rw [List.foldl_cons, processPaymentTotal_go sid l (a + i.price * i.quantity)]
    rw [List.map_cons, List.map_cons, List.sum_cons, add_assoc]
    rfl

/-- The stored sale-line totals of a cart sum to the cart total as
computed by `POSApp.processPayment`. -/
theorem sum_saleItem_totals (sid : Nat) (items : List CartItem) :
    ((items.map (mkSaleItem sid)).map (fun it => it.total)).sum = processPaymentTotal items := by
  unfold processPaymentTotal
  rw [processPaymentTotal_go sid items 0, zero_add]

/-- C2 (amended): each stored sale line's total is recomputed as
`unit_price × quantity` from the line's price and quantity fields, not
read from the line input; the stored sale total however is taken from the
caller-supplied `saleData.total`, so it equals the sum of the line totals
exactly when the caller computes the total the way
`POSApp.processPayment` does (`Σ price × quantity` over the cart). -/
theorem C2_lineTotals_recomputed
    (st : Store) (sd : SaleData) (user : String) (hsess : st.session = some user) :
    ∃ res st', createSale st sd = (DbResult.success res, st') ∧
      (∀ it ∈ res.items, it.total = it.unit_price * it.quantity) ∧
      res.sale.total = sd.total ∧
      (sd.total = processPaymentTotal sd.items →
        res.sale.total = (res.items.map (fun it => it.total)).sum) := by
  refine ⟨_, _, createSale_eq st sd user hsess, ?_, rfl, ?_⟩
  · intro it hit
    rw [List.mem_map] at hit
    obtain ⟨i, _, rfl⟩ := hit
    rfl
  · intro h
    show sd.total = _
    rw [h, sum_saleItem_totals]

/-- C2 witness: the amended statement instantiated at `exStore` with a
one-line cart and the total as `processPayment` computes it. -/
theorem C2_witness :
    ∃ res st',
      createSale exStore
          { items := [⟨1, "Shirt", 5, 2⟩],
            total := processPaymentTotal [⟨1, "Shirt", 5, 2⟩],
            payment_method := "Cash" } = (DbResult.success res, st') ∧
      (∀ it ∈ res.items, it.total = it.unit_price * it.quantity) ∧
      res.sale.total = processPaymentTotal [⟨1, "Shirt", 5, 2⟩] ∧
      (processPaymentTotal [⟨1, "Shirt", 5, 2⟩] = processPaymentTotal [⟨1, "Shirt", 5, 2⟩] →
        res.sale.total = (res.items.map (fun it => it.total)).sum) :=
  C2_lineTotals_recomputed exStore
    { items := [⟨1, "Shirt", 5, 2⟩],
      total := processPaymentTotal [⟨1, "Shirt", 5, 2⟩],
      payment_method := "Cash" } "cashier-1" rfl

set_option maxRecDepth 4000 in
/-- C2 counterexample: a `createSale` call whose caller-supplied total is
999 while the single recomputed line total is 5 succeeds and stores sale
total 999 ≠ 5: the stored sale total **is** taken on trust from the
input, refuting the claim as stated. -/
theorem C2_counterexample_total_trusted :
    (createSale exStore
        { items := [⟨1, "Shirt", 5, 1⟩], total := 999, payment_method := "Cash" }).1
      = DbResult.success
          { sale := { id := 1, cashier_id := "cashier-1", total := 999,
                      payment_method := "Cash" },
            items := [{ sale_id := 1, product_id := 1, product_name := "Shirt",
                        quantity := 1, unit_price := 5, total := 5 }],
            saleId := 1 } ∧
    ¬((999 : Rat) = 5) := by
  with_unfolding_all decide

/-- Three active products with stocks 0, 5 and 20 (price 1, no cost). -/
def c3Product (i : Nat) (s : Int) : Product :=
  { id := i, name := "P", category := "Tops", price := 1, cost_price := none,
    stock_quantity := s, size := none, barcode := none, is_on_sale := false,
    sale_price := none, is_active := true }

/-- The claim's example inventory: stocks [0, 5, 20]. -/
def c3Store : Store := { products := [c3Product 1 0, c3Product 2 5, c3Product 3 20] }

/-- C3: evaluating `getInventorySummary` at the claim's example stocks
[0, 5, 20]: `totalInventory = 25` and `outOfStockCount = 1` as claimed,
but `lowStockCount = 2`, not 1 — db.js 528 counts `stock_quantity < 10`,
which includes the out-of-stock item (and would exclude an item at
exactly 10), unlike the `0 < qty ≤ 10` definition used at admin.js 313
and pos.js 206/619/642 and stated by the claim. -/
theorem C3_lowStock_miscounts_at_failing_input :
    getInventorySummary c3Store =
      DbResult.success
        { totalInventory := 25, totalStockValue := 25, totalCostValue := 0,
          lowStockCount := 2, outOfStockCount := 1 } := by
  with_unfolding_all decide

/-- C4 (amended): `createSale` performs no cart validation: with an empty
cart (and an active session) it succeeds, writing exactly one sale record
with the caller-supplied total, and no sale lines, no stock updates and
no ledger entries; no ValidationError is produced. -/
theorem C4_emptyCart_succeeds
    (st : Store) (total : Rat) (pm : String) (user : String)
    (hsess : st.session = some user) :
    ∃ res, createSale st { items := [], total := total, payment_method := pm } =
      (DbResult.success res,
        { st with
            sales := st.sales ++
              [{ id := st.nextSaleId, cashier_id := user, total := total,
                 payment_method := pm }],
            nextSaleId := st.nextSaleId + 1 }) := by
  refine ⟨{ sale := { id := st.nextSaleId, cashier_id := user, total := total,
                      payment_method := pm },
            items := [], saleId := st.nextSaleId }, ?_⟩
  rw [createSale_eq st { items := [], total := total, payment_method := pm } user hsess]
  simp

/-- C4 witness: the amended statement instantiated at `exStore`. -/
theorem C4_witness :
    ∃ res, createSale exStore { items := [], total := 7, payment_method := "Cash" } =
      (DbResult.success res,
        { exStore with
            sales := exStore.sales ++
              [{ id := exStore.nextSaleId, cashier_id := "cashier-1", total := 7,
                 payment_method := "Cash" }],
            nextSaleId := exStore.nextSaleId + 1 }) :=
  C4_emptyCart_succeeds exStore 7 "Cash" "cashier-1" rfl

/-- C4 counterexample: a `createSale` call with an empty cart does not
reject with a ValidationError — it succeeds and writes a sale record. -/
theorem C4_counterexample_emptyCart_accepted :
    ((createSale exStore { items := [], total := 7, payment_method := "Cash" }).1.isSuccess
      = true) ∧
    ((createSale exStore { items := [], total := 7, payment_method := "Cash" }).2.sales.length
      = 1) := by
  with_unfolding_all decide

/-- The declarative filter predicate `getProducts` actually implements:
category equality only when a category other than `""`/`"All"` is given,
case-insensitive substring search on the **name only**, and active-only
unless `activeOnly` is exactly `false`. -/
def matchesFilterSpec (f : ProductFilters) (p : Product) : Bool :=
  (match f.category with
    | some c => c == "" || c == "All" || p.category == c
    | none => true) &&
  (match f.search with
    | some s => s == "" || ilikeContains p.name s
    | none => true) &&
  (f.activeOnly == some false || p.is_active)

/-- C5 (amended): `getProducts` returns exactly the stored products
matching `matchesFilterSpec` — category equality when a category is
given (and not falsy or "All"), case-insensitive substring search on the
name only (not the barcode), active-only unless `activeOnly` is exactly
`false` — ordered by name. -/
theorem C5_getProducts_characterization (st : Store) (f : ProductFilters) :
    ∃ res, getProducts st f = DbResult.success res ∧
      (∀ p, p ∈ res ↔ p ∈ st.products ∧ matchesFilterSpec f p = true) ∧
      List.Pairwise (fun a b : Product => a.name ≤ b.name) res := by
  obtain ⟨category, search, activeOnly⟩ := f
  refine ⟨_, rfl, ?_, List.sorted_insertionSort nameLe _⟩
  intro p
  rw [List.Perm.mem_iff (List.perm_insertionSort nameLe _)]
  cases category <;> cases search <;>
    by_cases ha : activeOnly = some false <;>
      simp [matchesFilterSpec, ha, List.mem_filter, and_assoc] <;>
      split_ifs <;>
        simp_all [List.mem_filter, and_assoc] <;> tauto

/-- C5 counterexample: the active product's barcode "12345" contains the
search string "123", but `getProducts` matches the search against the
name only, so the product is not returned — refuting "substring match on
name or barcode". -/
theorem C5_counterexample_barcode_not_searched :
    exShirt ∈ exStore.products ∧ exShirt.is_active = true ∧
    exShirt.barcode = some "12345" ∧ ilikeContains "12345" "123" = true ∧
    getProducts exStore { search := some "123" } = DbResult.success [] := by
  with_unfolding_all decide

/-- C6 (amended): `updateProduct` coerces numeric fields
(`parseFloat`/`parseInt`, the identity on numeric input) but performs
**no validation**: whenever the store accepts the write, the call
succeeds and every provided field — including a negative price or stock —
is stored unchanged; no ValidationError path exists. -/
theorem C6_updateProduct_no_validation (st : Store) (pid : Nat) (u : ProductUpdates)
    (h : st.failProductUpdate = false) :
    (updateProduct st pid u).1.isSuccess = true ∧
    (updateProduct st pid u).2.products.filter (fun p => p.id == pid) =
      (st.products.filter (fun p => p.id == pid)).map (applyUpdates u) := by
  constructor
  · simp [updateProduct, h, DbResult.isSuccess]
  · rw [updateProduct_snd, h]
    simp only [if_false, Bool.false_eq_true]
    exact filter_map_updRow_eq u

/-- C6 witness: updating the shirt's price to −5 succeeds and the update
is applied verbatim. -/
theorem C6_witness :
    (updateProduct exStore 1 { price := some (-5) }).1.isSuccess = true ∧
    (updateProduct exStore 1 { price := some (-5) }).2.products.filter (fun p => p.id == 1) =
      (exStore.products.filter (fun p => p.id == 1)).map (applyUpdates { price := some (-5) }) :=
  C6_updateProduct_no_validation exStore 1 { price := some (-5) } rfl

/-- C6 counterexample: updating the price to −5 does not fail with a
ValidationError — the call succeeds and the stored price is −5 < 0,
refuting "validated so that price ≥ 0". -/
theorem C6_counterexample_negative_price_stored :
    ((updateProduct exStore 1 { price := some (-5) }).1.isSuccess = true) ∧
    ((updateProduct exStore 1 { price := some (-5) }).2.products.map (fun p => p.price)
      = [-5]) := by
  with_unfolding_all decide

/-- A `createProduct` payload with initial stock 10. -/
def exCapData : ProductData :=
  { name := "Cap", category := "Acc", price := 8, stock_quantity := some 10 }

/-- A `createProduct` payload with no initial stock field. -/
def exCapDataNoStock : ProductData := { name := "Cap", category := "Acc", price := 8 }

/-- `exStore` with the ledger-insert fault injected: the remote store
rejects inserts into `inventory_transactions`. -/
def exStoreFailTx : Store :=
  { products := [exShirt], session := some "cashier-1", failTxInsert := true }

/-- C7: creating a product with initial stock `s > 0` (with a session and
a working ledger) appends exactly one `"restock"` ledger entry with delta
`+s` and note "Initial stock" for the new product; if the ledger append
fails, the creation still reports success and the product is stored, with
no rollback; with no (or zero) initial stock no ledger entry is written. -/
theorem C7_createProduct_initial_stock
    (st : Store) (pd : ProductData) (user : String) (s : Int) :
    (pd.stock_quantity = some s → 0 < s → st.session = some user →
      st.failTxInsert = false →
      st.inventory_transactions.filter (fun e => e.product_id == st.nextProductId) = [] →
      (createProduct st pd).1.isSuccess = true ∧
      (∃ p, (createProduct st pd).1 = DbResult.success p ∧
        p ∈ (createProduct st pd).2.products) ∧
      ((createProduct st pd).2.inventory_transactions.filter
          (fun e => e.product_id == st.nextProductId)).map
          (fun e => (e.type, e.quantity, e.notes)) = [("restock", s, "Initial stock")]) ∧
    (st.failTxInsert = true →
      (createProduct st pd).1.isSuccess = true ∧
      (∃ p, (createProduct st pd).1 = DbResult.success p ∧
        p ∈ (createProduct st pd).2.products) ∧
      (createProduct st pd).2.inventory_transactions = st.inventory_transactions) ∧
    ((pd.stock_quantity = none ∨ pd.stock_quantity = some 0) →
      (createProduct st pd).1.isSuccess = true ∧
      (createProduct st pd).2.inventory_transactions = st.inventory_transactions) := by
  refine ⟨?_, ?_, ?_⟩
  · intro hsq hs hsess hft hfresh
    unfold createProduct
    dsimp only []
    rw [hsq]
    simp only [Option.getD_some]
    rw [if_pos hs]
    rw [createInventoryTransaction_snd]
    dsimp only []
    rw [hsess]
    simp only [hft, if_false, Bool.false_eq_true]
    refine ⟨rfl, ⟨_, rfl, ?_⟩, ?_⟩
    · exact List.mem_append_right _ (List.mem_singleton.mpr rfl)
    · rw [List.filter_append, hfresh, List.nil_append]
      simp
  · intro hft
    unfold createProduct
    dsimp only []
    by_cases hc : pd.stock_quantity.getD 0 > 0
    · rw [if_pos hc, createInventoryTransaction_snd]
      dsimp only []
      cases hsess : st.session with
      | none =>
        exact ⟨rfl, ⟨_, rfl, List.mem_append_right _ (List.mem_singleton.mpr rfl)⟩, rfl⟩
      | some u =>
        simp only [hft, if_true]
        exact ⟨rfl, ⟨_, rfl, List.mem_append_right _ (List.mem_singleton.mpr rfl)⟩, trivial⟩
    · rw [if_neg hc]
      exact ⟨rfl, ⟨_, rfl, List.mem_append_right _ (List.mem_singleton.mpr rfl)⟩, rfl⟩
  · intro hz
    unfold createProduct
    dsimp only []
    have hc : ¬pd.stock_quantity.getD 0 > 0 := by
      cases hz with
      | inl h => rw [h]; simp
      | inr h => rw [h]; simp
    rw [if_neg hc]
    exact ⟨rfl, rfl⟩

/-- C7 witness: the three branches instantiated — initial stock 10 at
`exStore` (one restock entry), the same payload at `exStoreFailTx`
(creation still succeeds, no ledger entry), and a payload without stock
(no ledger entry). -/
theorem C7_witness :
    ((createProduct exStore exCapData).1.isSuccess = true ∧
      (∃ p, (createProduct exStore exCapData).1 = DbResult.success p ∧
        p ∈ (createProduct exStore exCapData).2.products) ∧
      ((createProduct exStore exCapData).2.inventory_transactions.filter
          (fun e => e.product_id == exStore.nextProductId)).map
          (fun e => (e.type, e.quantity, e.notes)) = [("restock", 10, "Initial stock")]) ∧
    ((createProduct exStoreFailTx exCapData).1.isSuccess = true ∧
      (∃ p, (createProduct exStoreFailTx exCapData).1 = DbResult.success p ∧
        p ∈ (createProduct exStoreFailTx exCapData).2.products) ∧
      (createProduct exStoreFailTx exCapData).2.inventory_transactions =
        exStoreFailTx.inventory_transactions) ∧
    ((createProduct exStore exCapDataNoStock).1.isSuccess = true ∧
      (createProduct exStore exCapDataNoStock).2.inventory_transactions =
        exStore.inventory_transactions) :=
  ⟨(C7_createProduct_initial_stock exStore exCapData "cashier-1" 10).1
      rfl (by decide) rfl rfl rfl,
   (C7_createProduct_initial_stock exStoreFailTx exCapData "cashier-1" 10).2.1 rfl,
   (C7_createProduct_initial_stock exStore exCapDataNoStock "cashier-1" 0).2.2 (Or.inl rfl)⟩

/-- C8: the per-item stock update is an unprotected read-then-write.
Under the interleaving read₁, read₂, write₁, write₂ of two concurrent
`createSale` stock steps for the same product with stored stock `q1`,
both reads return the same row, both write phases complete (appending
both `"sale"` ledger entries), the final stored stock is `q1 - q2` —
i.e. the first decrement is lost relative to the sequential outcome
`q1 - q1 - q2` — and when `q1 < q2` the final stock is negative. -/
theorem C8_read_then_write_lost_update
    (st : Store) (user : String) (pid : Nat) (P : Product) (q1 q2 : Int) (sid1 sid2 : Nat)
    (hsess : st.session = some user) (hf1 : st.failProductUpdate = false)
    (hf2 : st.failTxInsert = false)
    (hfilter : st.products.filter (fun p => p.id == pid) = [P])
    (hstock : P.stock_quantity = q1) :
    saleStockRead st pid = DbResult.success P ∧
    (((saleStockWrite user sid2 (saleStockWrite user sid1 st pid P q1) pid P q2).products.filter
        (fun p => p.id == pid)).map (fun p => p.stock_quantity) = [q1 - q2]) ∧
    ((saleStockWrite user sid2 (saleStockWrite user sid1 st pid P q1) pid
        P q2).inventory_transactions.length = st.inventory_transactions.length + 2) ∧
    (0 < q1 → ¬(q1 - q2 = q1 - q1 - q2)) ∧
    (q1 < q2 → q1 - q2 < 0) := by
  have w1 := saleStockWrite_eff user sid1 st pid P q1 hsess hf1 hf2
  have w2 := saleStockWrite_eff user sid2 (saleStockWrite user sid1 st pid P q1) pid P q2
    (w1.2.2.1.trans hsess) (w1.2.2.2.1.trans hf1) (w1.2.2.2.2.trans hf2)
  refine ⟨getProductById_of_filter hfilter, ?_, ?_, ?_, ?_⟩
  · rw [w2.1, w1.1, hfilter]
    simp only [List.map_singleton, applyUpdates_stock, hstock]
  · rw [w2.2.1, w1.2.1]
    simp
  · intro h
    omega
  · intro h
    omega

/-- C8 witness: the interleaving instantiated at `exStore` (stock 3),
with concurrent quantities 3 and 5: final stock −2, two sale entries. -/
theorem C8_witness :
    saleStockRead exStore 1 = DbResult.success exShirt ∧
    (((saleStockWrite "cashier-1" 2 (saleStockWrite "cashier-1" 1 exStore 1 exShirt 3) 1
        exShirt 5).products.filter (fun p => p.id == 1)).map (fun p => p.stock_quantity)
      = [(3 : Int) - 5]) ∧
    ((saleStockWrite "cashier-1" 2 (saleStockWrite "cashier-1" 1 exStore 1 exShirt 3) 1
        exShirt 5).inventory_transactions.length
      = exStore.inventory_transactions.length + 2) ∧
    (0 < (3 : Int) → ¬((3 : Int) - 5 = 3 - 3 - 5)) ∧
    ((3 : Int) < 5 → (3 : Int) - 5 < 0) :=
  C8_read_then_write_lost_update exStore "cashier-1" 1 exShirt 3 5 1 2
    rfl rfl rfl rfl rfl

/-- `exStore` with the product-update fault injected: the remote store
rejects updates to the `products` table. -/
def exStoreFailUpd : Store :=
  { products := [exShirt], session := some "cashier-1", failProductUpdate := true }

/-- `exStore` without an authenticated session. -/
def exStoreNoSession : Store := { products := [exShirt] }

/-- C9: `restockProduct` on an existing product reports
`success` with `newStock = currentStock + quantity` even when the
underlying stock update fails (the stored stock is left unchanged while a
restock ledger entry is still appended) or the ledger append fails (no
entry is written), because it never checks the results of
`updateProduct` and `createInventoryTransaction`. -/
theorem C9_restock_ignores_failures
    (st : Store) (pid : Nat) (P : Product) (q : Int) (notes : String) (user : String)
    (hfilter : st.products.filter (fun p => p.id == pid) = [P]) :
    (st.failProductUpdate = true → st.session = some user → st.failTxInsert = false →
      (restockProduct st pid q notes).1 = DbResult.success (P.stock_quantity + q) ∧
      ((restockProduct st pid q notes).2.products.filter (fun p => p.id == pid)).map
          (fun p => p.stock_quantity) = [P.stock_quantity] ∧
      (restockProduct st pid q notes).2.inventory_transactions.length =
        st.inventory_transactions.length + 1) ∧
    (st.session = none →
      (restockProduct st pid q notes).1 = DbResult.success (P.stock_quantity + q) ∧
      (restockProduct st pid q notes).2.inventory_transactions =
        st.inventory_transactions) := by
  constructor
  · intro hfu hsess hft
    unfold restockProduct
    rw [getProductById_of_filter hfilter]
    dsimp only []
    rw [updateProduct_snd, hfu]
    simp only [if_true]
    rw [createInventoryTransaction_snd]
    dsimp only []
    rw [hsess]
    simp only [hft, if_false, Bool.false_eq_true]
    refine ⟨trivial, ?_, ?_⟩
    · rw [hfilter]
      rfl
    · simp
  · intro hsess
    unfold restockProduct
    rw [getProductById_of_filter hfilter]
    dsimp only []
    rw [updateProduct_snd, createInventoryTransaction_snd]
    by_cases hfu : st.failProductUpdate <;> simp [hfu, hsess]

/-- C9 witness: the two failure modes instantiated — at `exStoreFailUpd`
(stock write rejected) and at `exStoreNoSession` (ledger append fails for
lack of a session); both report success with `newStock = 3 + 5`. -/
theorem C9_witness :
    ((restockProduct exStoreFailUpd 1 5 "").1 =
        DbResult.success (exShirt.stock_quantity + 5) ∧
      ((restockProduct exStoreFailUpd 1 5 "").2.products.filter (fun p => p.id == 1)).map
          (fun p => p.stock_quantity) = [exShirt.stock_quantity] ∧
      (restockProduct exStoreFailUpd 1 5 "").2.inventory_transactions.length =
        exStoreFailUpd.inventory_transactions.length + 1) ∧
    ((restockProduct exStoreNoSession 1 5 "").1 =
        DbResult.success (exShirt.stock_quantity + 5) ∧
      (restockProduct exStoreNoSession 1 5 "").2.inventory_transactions =
        exStoreNoSession.inventory_transactions) :=
  ⟨(C9_restock_ignores_failures exStoreFailUpd 1 exShirt 5 "" "cashier-1" rfl).1 rfl rfl rfl,
   (C9_restock_ignores_failures exStoreNoSession 1 exShirt 5 "" "cashier-1" rfl).2 rfl⟩

/-- C10: `getProductByBarcode` does not restrict its single-row lookup to
active products: when two stored rows share the barcode (as a
soft-deleted product keeping its barcode next to an active one does), the
lookup returns a failure result; `checkBarcodeExists`, by contrast,
counts only active rows and reports `true` when an active match exists. -/
theorem C10_barcode_lookup_vs_check
    (st : Store) (code : String)
    (hdup : 2 ≤ (st.products.filter (fun p => p.barcode == some code)).length) :
    (getProductByBarcode st code).isSuccess = false ∧
    (1 ≤ (st.products.filter
        (fun (p : Product) => p.barcode == some code && p.is_active)).length →
      checkBarcodeExists st code none = DbResult.success true) := by
  constructor
  · unfold getProductByBarcode
    cases hl : st.products.filter (fun p => p.barcode == some code) with
    | nil => rw [hl] at hdup; simp at hdup
    | cons a t =>
      cases t with
      | nil => rw [hl] at hdup; simp at hdup
      | cons b t2 => rfl
  · intro h1
    unfold checkBarcodeExists
    dsimp only []
    have : 0 < (st.products.filter
        (fun (p : Product) => p.barcode == some code && p.is_active)).length :=
      lt_of_lt_of_le Nat.zero_lt_one h1
    simp [this]

/-- Two active products sharing barcode "777". -/
def exTee (i : Nat) (nm : String) : Product :=
  { id := i, name := nm, category := "Tops", price := 4, cost_price := none,
    stock_quantity := 2, size := none, barcode := some "777", is_on_sale := false,
    sale_price := none, is_active := true }

/-- A store in which product 1 was soft-deleted via `deleteProduct` but
still holds barcode "777", which the active product 2 also has — a state
the data model permits. -/
def exStoreDupBarcode : Store :=
  (deleteProduct
    { products := [exTee 1 "Tee A", exTee 2 "Tee B"], session := some "admin-1" } 1).2

/-- C10 witness: at `exStoreDupBarcode` the barcode lookup fails while
`checkBarcodeExists` reports `true` for the single active match. -/
theorem C10_witness :
    (getProductByBarcode exStoreDupBarcode "777").isSuccess = false ∧
    checkBarcodeExists exStoreDupBarcode "777" none = DbResult.success true :=
  ⟨(C10_barcode_lookup_vs_check exStoreDupBarcode "777"
      (by with_unfolding_all decide)).1,
   (C10_barcode_lookup_vs_check exStoreDupBarcode "777"
      (by with_unfolding_all decide)).2 (by with_unfolding_all decide)⟩

end LimitlessPOS
